import Mathlib

/-!
Verification development for the IP geolocation/threat-assessment service.

The definitions below are a shallow embedding of the JavaScript source:
  * `utils/ipValidation.js`   — `isValidIP` (the IPv4/IPv6 regexes are
    translated into explicit character-list parsers),
  * `services/geoService.js`  — `mergeGeoResults`, `validateGeoData`,
    `sanitizeGeoValue`, `calculateDataQuality`, `getTimezoneFromCoordinates`,
    `getCurrencyFromCountry`, `getLanguagesFromCountry`, `getGeoInfo`,
  * `services/threatService.js` + `config/threatRules.js` — the six threat
    checks, `calculateRiskLevel` and `getThreatInfo`.

JavaScript values flowing through the geolocation pipeline are modelled by
`JVal`; a JS object is an insertion-ordered association list `Obj`.  An
absent key (JS `undefined`) is modelled by a missing entry, while an
explicit JS `null` is the stored value `JVal.jnull` — the two are
distinguished exactly where the source distinguishes them
(`data.latitude !== null` is true for an absent latitude).
-/

namespace IpApi

/-- Model of the JavaScript values produced by the three geolocation
providers: `null`, numbers, strings, booleans, arrays of strings (the
`languages` enrichment) and plain objects (the `confidence` maps). -/
inductive JVal where
  | jnull : JVal
  | jnum (q : ℚ) : JVal
  | jstr (s : String) : JVal
  | jbool (b : Bool) : JVal
  | jarr (ss : List String) : JVal
  | jobj (kvs : List (String × JVal)) : JVal

/-- A JS object: insertion-ordered key/value list. -/
abbrev Obj := List (String × JVal)

/-- Property read, `o[k]`: `none` models JS `undefined`. -/
def objGet (o : Obj) (k : String) : Option JVal :=
  match o with
  | [] => none
  | (k', v) :: rest => if k' = k then some v else objGet rest k

/-- Property write, `o[k] = v`: updates in place, appends a fresh key. -/
def objSet (o : Obj) (k : String) (v : JVal) : Obj :=
  match o with
  | [] => [(k, v)]
  | (k', v') :: rest => if k' = k then (k, v) :: rest else (k', v') :: objSet rest k v

/-- `v === null` on a stored value. -/
def isJNull : JVal → Bool
  | .jnull => true
  | _ => false

/-- JS truthiness of a value (`NaN` never arises in the model: `parseFloat`
failures are represented as `null` before storage). -/
def jsTruthy : JVal → Bool
  | .jnull => false
  | .jnum q => q ≠ 0
  | .jstr s => s ≠ ""
  | .jbool b => b
  | .jarr _ => true
  | .jobj _ => true

/-- Truthiness of a property read (`undefined` is falsy). -/
def jsTruthyO : Option JVal → Bool
  | none => false
  | some v => jsTruthy v

/-- `o[k] !== null` in JS: true for an absent key (`undefined !== null`). -/
def notNullRead (o : Obj) (k : String) : Bool :=
  match objGet o k with
  | none => true
  | some v => !(isJNull v)

/-! ## String primitives

Structural (kernel-computable) models of the JavaScript string operations
used by the source: `trim`, `toUpperCase`/`toLowerCase` (ASCII, the only
case-carrying data here), `startsWith`, `includes`, `split`. -/

/-- JS whitespace (the characters relevant to the modelled inputs). -/
def isWsC (c : Char) : Bool := c = ' ' || c = '\t' || c = '\n' || c = '\r'

/-- `String.prototype.trim` -/
def jsTrim (s : String) : String :=
  String.mk ((((s.data.dropWhile isWsC).reverse).dropWhile isWsC).reverse)

def upChar (c : Char) : Char :=
  if 'a' ≤ c && c ≤ 'z' then Char.ofNat (c.toNat - 32) else c

def downChar (c : Char) : Char :=
  if 'A' ≤ c && c ≤ 'Z' then Char.ofNat (c.toNat + 32) else c

/-- `String.prototype.toUpperCase` -/
def jsToUpper (s : String) : String := String.mk (s.data.map upChar)

/-- `String.prototype.toLowerCase` -/
def jsToLower (s : String) : String := String.mk (s.data.map downChar)

/-- List-prefix test. -/
def isPrefOf : List Char → List Char → Bool
  | [], _ => true
  | _ :: _, [] => false
  | a :: as, b :: bs => a = b && isPrefOf as bs

/-- `String.prototype.startsWith` -/
def jsStartsWith (s p : String) : Bool := isPrefOf p.data s.data

def inclAux (sub : List Char) : List Char → Bool
  | [] => isPrefOf sub []
  | x :: r => isPrefOf sub (x :: r) || inclAux sub r

/-- `a.includes(b)` -/
def strIncl (s sub : String) : Bool := inclAux sub.data s.data

/-- Case-insensitive substring test, modelling an `/i` regex whose pattern
is a lowercase literal. -/
def strInclCI (s sub : String) : Bool := strIncl (jsToLower s) sub

/-- `String.prototype.split` with a one-character separator. -/
def splitChar (l : List Char) (c : Char) : List (List Char) :=
  match l with
  | [] => [[]]
  | x :: r =>
    match splitChar r c with
    | [] => [[x]]
    | h :: t => if x = c then [] :: h :: t else (x :: h) :: t

/-- Number of fields of `s.split(sep)` for a one-character separator. -/
def splitCount (s : String) (c : Char) : ℕ := (splitChar s.data c).length

/-- The suffix after the first occurrence of `sub`, if any. -/
def afterSub (sub : List Char) : List Char → Option (List Char)
  | [] => if sub.isEmpty then some [] else none
  | x :: r =>
    if isPrefOf sub (x :: r) then some (List.drop sub.length (x :: r))
    else afterSub sub r

/-! ## `utils/ipValidation.js` — `isValidIP`

The source tests two anchored regexes.  They are translated into
character-list parsers; maximal digit/hex spans are equivalent to the
regex alternations because every alternative is a run of digit (resp. hex)
characters that must be followed by `.`/`:`/end of input. -/

/-- `[0-9]` -/
def isDigitC (c : Char) : Bool := '0' ≤ c && c ≤ '9'

/-- `[0-9a-fA-F]` -/
def isHexC (c : Char) : Bool :=
  ('0' ≤ c && c ≤ '9') || ('a' ≤ c && c ≤ 'f') || ('A' ≤ c && c ≤ 'F')

/-- Maximal run of digits and the rest. -/
def digitSpan : List Char → List Char × List Char
  | [] => ([], [])
  | c :: r =>
    if isDigitC c then
      let p := digitSpan r
      (c :: p.1, p.2)
    else ([], c :: r)

/-- One IPv4 octet: `25[0-5]|2[0-4][0-9]|[01]?[0-9][0-9]?`. -/
def octetMatch : List Char → Bool
  | [c] => isDigitC c
  | [c1, c2] => isDigitC c1 && isDigitC c2
  | [c1, c2, c3] =>
    (c1 = '2' && c2 = '5' && '0' ≤ c3 && c3 ≤ '5') ||
    (c1 = '2' && '0' ≤ c2 && c2 ≤ '4' && isDigitC c3) ||
    ((c1 = '0' || c1 = '1') && isDigitC c2 && isDigitC c3)
  | _ => false

/-- The anchored IPv4 regex `^(octet\.){3}octet$`. -/
def valid4 (l : List Char) : Bool :=
  let p1 := digitSpan l
  match p1.2 with
  | '.' :: r1 =>
    let p2 := digitSpan r1
    match p2.2 with
    | '.' :: r2 =>
      let p3 := digitSpan r2
      match p3.2 with
      | '.' :: r3 =>
        let p4 := digitSpan r3
        p4.2.isEmpty && octetMatch p1.1 && octetMatch p2.1 &&
          octetMatch p3.1 && octetMatch p4.1
      | _ => false
    | _ => false
  | _ => false

/-- Deterministic scan of `^(h{1,4}:){7}h{1,4}$`: `curLen` is the length of
the hex group being read, `groups` the number of completed (colon-closed)
groups.  The whole alternative is `v6Full l 0 0`. -/
def v6Full (l : List Char) (curLen groups : ℕ) : Bool :=
  match l with
  | [] => decide (groups = 7) && decide (1 ≤ curLen) && decide (curLen ≤ 4)
  | c :: r =>
    if isHexC c then v6Full r (curLen + 1) groups
    else if c = ':' then
      decide (1 ≤ curLen) && decide (curLen ≤ 4) && v6Full r 0 (groups + 1)
    else false

/-- Deterministic scan of `h{1,4}(:h{1,4})*` (the part after `::` in the
compressed alternative), entered with `curLen = 0`. -/
def v6Post (l : List Char) (curLen : ℕ) : Bool :=
  match l with
  | [] => decide (1 ≤ curLen) && decide (curLen ≤ 4)
  | c :: r =>
    if isHexC c then v6Post r (curLen + 1)
    else if c = ':' then
      decide (1 ≤ curLen) && decide (curLen ≤ 4) && v6Post r 0
    else false

/-- Deterministic scan of `(h{1,4}:)*::` followed by `v6Post`: the regex's
`::` can only start where no partial group is pending (a group is always
consumed together with its closing single colon), so a left-to-right scan
realises exactly the strings the backtracking engine accepts — e.g.
`1:2::3` is rejected while `1:::3` and `::3` are accepted, as in the
source's regex. -/
def v6Pre (l : List Char) (curLen : ℕ) : Bool :=
  match l with
  | [] => false
  | c :: r =>
    if isHexC c then v6Pre r (curLen + 1)
    else if c = ':' then
      if curLen = 0 then
        match r with
        | ':' :: r2 => v6Post r2 0
        | _ => false
      else decide (curLen ≤ 4) && v6Pre r 0
    else false

/-- The anchored IPv6 regex of the source:
`^(h{1,4}:){7}h{1,4}$|^::1$|^::$|^(h{1,4}:)*::h{1,4}(:h{1,4})*$`. -/
def valid6 (l : List Char) : Bool :=
  v6Full l 0 0 || decide (l = [':', ':', '1']) || decide (l = [':', ':']) || v6Pre l 0

/-- `isValidIP` from `utils/ipValidation.js` on a string argument. -/
def isValidIP (s : String) : Bool :=
  if s = "" then false
  else valid4 s.data || valid6 s.data

/-- `isValidIP` on an arbitrary argument: `none` models a non-string
(`null`/`undefined`) input, rejected by the `typeof` guard. -/
def isValidIPArg : Option String → Bool
  | none => false
  | some s => isValidIP s

/-! ## `config/threatRules.js` and `services/threatService.js`

A request is its (lowercased) header list and path; `reqHeader` models
Hono's `request.header(name)`, returning `undefined` (`none`) for an
absent header. -/

structure Req where
  headers : List (String × String)
  path : String

def reqHeader (r : Req) (n : String) : Option String :=
  (r.headers.find? (fun kv => kv.1 = n)).map (fun kv => kv.2)

/-- `request.header(name) || ""` -/
def reqHeaderD (r : Req) (n : String) : String := (reqHeader r n).getD ""

/-- Truthiness of `request.header(name)` (an empty string is falsy). -/
def reqHeaderT (r : Req) (n : String) : Bool :=
  match reqHeader r n with
  | none => false
  | some s => s ≠ ""

/-- `THREAT_RULES.legitimateISPs.ipv4` -/
def legitimateISPs4 : List String :=
  ["1.", "14.", "27.", "36.", "39.", "42.", "49.", "58.", "59.", "60.", "61.",
   "101.", "106.", "110.", "111.", "112.", "113.", "114.", "115.", "116.",
   "117.", "118.", "119.", "120.", "121.", "122.", "123.", "124.", "125.",
   "175.", "180.", "182.", "183.", "202.", "203.", "210.", "211.", "218.",
   "219.", "220.", "221.", "222.", "223.",
   "8.8.", "8.34.", "1.1.", "1.0.", "4.2.2.", "208.67.",
   "24.", "50.", "66.", "67.", "68.", "69.", "70.", "71.", "72.", "73.",
   "74.", "75.", "76.", "96.", "97.", "98.", "99.",
   "173.", "174.", "184.", "190.",
   "80.", "81.", "82.", "83.", "84.", "85.", "86.", "87.", "88.", "89.",
   "90.", "91.", "92.", "93.", "94.", "95.",
   "200.", "201.", "202.", "203.",
   "196.", "197.", "198.", "199."]

/-- `THREAT_RULES.legitimateISPs.ipv6` -/
def legitimateISPs6 : List String :=
  ["2409:", "240e:", "2408:", "240c:", "2001:da8:",
   "2001:4860:", "2a00:1450:", "2001:558:", "2600:1400:",
   "2001:4998:", "2620:0:", "2a02:26f0:", "2001:8b0:", "2001:200:",
   "2400:cb00:"]

/-- `THREAT_RULES.knownVPNRanges` -/
def knownVPNRanges4 : List String :=
  ["185.220.100.", "185.220.101.", "185.220.102.",
   "198.98.50.", "198.98.51.", "198.98.52.",
   "46.166.160.", "46.166.161.", "192.42.116."]

def knownVPNRanges6 : List String := ["2001:67c:4e8:", "2a03:2880:"]

/-- `THREAT_RULES.datacenterRanges.ipv4` -/
def datacenterRanges4 : List String :=
  ["138.68.", "159.89.", "167.99.", "207.154.", "178.62.", "46.101.",
   "5.79.", "5.135.", "167.114.",
   "51.15.", "51.158.",
   "52.0.", "52.1.", "52.2.",
   "35.0.", "35.1.", "35.2.",
   "40.0.", "40.1.", "40.2."]

/-- `THREAT_RULES.legitimateServices.ipv4` -/
def legitimateServices4 : List String :=
  ["104.28.", "172.67.", "151.101.", "185.199.", "140.82.", "13.107.", "23.",
   "52.", "54.", "35.", "34.", "40.", "13.",
   "66.249.", "157.55.", "199.16.", "31.13."]

/-- The inline `proxyRanges` list in `isKnownProxyRange`. -/
def proxyRanges4 : List String :=
  ["185.220.100.", "185.220.101.", "198.98.50.", "198.98.51.",
   "46.166.160.", "46.166.161.", "192.42.116.",
   "5.79.", "5.135.", "51.15.", "51.158.", "167.114."]

def startsWithAny (ip : String) (ranges : List String) : Bool :=
  ranges.any (fun r => jsStartsWith ip r)

/-- `isLegitimateISP` -/
def isLegitimateISP (ip : String) : Bool :=
  if strIncl ip ":" then startsWithAny ip legitimateISPs6
  else startsWithAny ip legitimateISPs4

/-- `isLegitimateService` -/
def isLegitimateService (ip : String) : Bool :=
  startsWithAny ip legitimateServices4

/-- `isKnownVPNRange` -/
def isKnownVPNRange (ip : String) : Bool :=
  if isLegitimateISP ip then false
  else if strIncl ip ":" then startsWithAny ip knownVPNRanges6
  else startsWithAny ip knownVPNRanges4

/-- `isDatacenterIP` -/
def isDatacenterIP (ip : String) : Bool :=
  if isLegitimateISP ip then false
  else if isLegitimateService ip then false
  else startsWithAny ip datacenterRanges4

/-- `isKnownProxyRange` -/
def isKnownProxyRange (ip : String) : Bool :=
  if isLegitimateService ip then false
  else startsWithAny ip proxyRanges4

/-- `isKnownTorExitNode` -/
def isKnownTorExitNode (ip : String) : Bool :=
  startsWithAny ip ["185.220.", "199.87.", "176.10.", "51.15.", "163.172.", "95.216."]

/-- `isKnownBadIP`: the internal blacklist ships empty. -/
def isKnownBadIP (ip : String) : Bool := ([] : List String).contains ip

/-- `isKnownGoodIP` -/
def isKnownGoodIP (ip : String) : Bool :=
  startsWithAny ip ["8.8.8.", "1.1.1.", "208.67.222."]

/-- Result of one threat check (`detected`, `riskScore`, `indicators`,
`source`). -/
structure CheckResult where
  detected : Bool
  riskScore : ℚ
  indicators : List String
  source : Option String

/-- `checkGeoInconsistency` — placeholder, never suspicious. -/
def checkGeoInconsistency (_r : Req) : Bool × ℚ := (false, 0)

/-- `checkIPHops`: `multipleHops` iff the X-Forwarded-For chain splits into
more than two comma-separated entries. -/
def checkIPHops (r : Req) : Bool :=
  decide (splitCount (reqHeaderD r "x-forwarded-for") ',' > 2)

/-- `checkVPNHeaders` -/
def checkVPNHeaders (r : Req) : Bool × ℚ × List String :=
  let hs := ["x-vpn-client", "x-tunnel-type", "x-forwarded-proto",
             "x-original-forwarded-for"]
  hs.foldl
    (fun acc h =>
      if reqHeaderT r h then (true, acc.2.1 + 25, acc.2.2 ++ ["vpn_header_" ++ h])
      else acc)
    (false, 0, [])

/-- `checkVPN` -/
def checkVPN (ip : String) (r : Req) : CheckResult :=
  if isLegitimateISP ip then
    { detected := false, riskScore := 0, indicators := ["legitimate_isp"],
      source := some "enhanced_vpn_check" }
  else
    let s0 : Bool × ℚ × List String := (false, 0, [])
    let s1 := if isKnownVPNRange ip then
        (true, s0.2.1 + 60, s0.2.2 ++ ["known_vpn_range"]) else s0
    let s2 := if isDatacenterIP ip then
        (true, s1.2.1 + 40, s1.2.2 ++ ["datacenter_ip"]) else s1
    let geo := checkGeoInconsistency r
    let s3 := if geo.1 then (s2.1, s2.2.1 + 20, s2.2.2 ++ ["geo_inconsistency"]) else s2
    let s4 := if checkIPHops r then
        (true, s3.2.1 + 30, s3.2.2 ++ ["multiple_hops"]) else s3
    let hv := checkVPNHeaders r
    let s5 := if hv.1 then (true, s4.2.1 + hv.2.1, s4.2.2 ++ hv.2.2) else s4
    { detected := s5.1, riskScore := s5.2.1, indicators := s5.2.2,
      source := some "enhanced_vpn_check" }

/-- `analyzeProxyHeaders`: returns `(detected, score, indicators)`. -/
def analyzeProxyHeaders (r : Req) : Bool × ℚ × List String :=
  let hs := ["x-forwarded-for", "x-real-ip", "x-proxy-id", "via",
             "forwarded", "x-cluster-client-ip", "x-forwarded-proto",
             "x-forwarded-host", "cf-connecting-ip", "cf-ipcountry",
             "cf-ray", "cf-visitor"]
  let st := hs.foldl
    (fun (acc : Bool × ℚ × List String × ℕ) h =>
      match reqHeader r h with
      | none => acc
      | some hv =>
        if hv = "" then acc else
        let acc1 := (acc.1, acc.2.1, acc.2.2.1 ++ ["proxy_header_" ++ h], acc.2.2.2 + 1)
        let acc2 :=
          if h = "x-forwarded-for" && strIncl hv "," then
            let ips := splitChar hv.data ','
            if ips.length > 1 then
              (true, acc1.2.1 + ips.length * 15,
               acc1.2.2.1 ++ ["proxy_chain_" ++ toString ips.length ++ "_hops"],
               acc1.2.2.2)
            else acc1
          else acc1
        let acc3 :=
          if h = "via" then
            (true, acc2.2.1 + 25, acc2.2.2.1 ++ ["via_header_present"], acc2.2.2.2)
          else acc2
        if jsStartsWith h "cf-" then
          (acc3.1, acc3.2.1 + 10, acc3.2.2.1 ++ ["cloudflare_" ++ h], acc3.2.2.2)
        else acc3)
    ((false, 0, [], 0) : Bool × ℚ × List String × ℕ)
  let indicators := st.2.2.1
  let headerCount := st.2.2.2
  let cfCount := (indicators.filter (fun i => strIncl i "cloudflare")).length
  let realCount : ℤ := (headerCount : ℤ) - cfCount
  let detected1 :=
    if realCount > 2 || (realCount > 1 && st.2.1 > 40) then true else st.1
  if cfCount > 0 && realCount = 0 then (false, 0, indicators)
  else (detected1, st.2.1, indicators)

/-- `checkSuspiciousPorts` -/
def checkSuspiciousPorts (r : Req) : Bool :=
  let host := reqHeaderD r "host"
  ["8080", "3128", "1080", "8888", "9050"].any (fun p => strIncl host (":" ++ p))

/-- `checkProxyUserAgent` -/
def checkProxyUserAgent (r : Req) : Bool × ℚ × List String :=
  let ua := reqHeaderD r "user-agent"
  let al := reqHeaderD r "accept-language"
  let ae := reqHeaderD r "accept-encoding"
  let proxyPats := ["squid", "proxy", "curl", "wget", "python-requests",
                    "go-http-client", "okhttp", "apache-httpclient", "java",
                    "node.js", "postman", "insomnia"]
  let vpnPats := ["openvpn", "nordvpn", "expressvpn", "surfshark", "cyberghost",
                  "tunnelbear", "protonvpn", "windscribe", "privatevpn", "vpn"]
  let s0 : Bool × ℚ × List String := (false, 0, [])
  let s1 := if proxyPats.any (fun p => strInclCI ua p) then
      (true, s0.2.1 + 30, s0.2.2 ++ ["proxy_user_agent"]) else s0
  let s2 := if vpnPats.any (fun p => strInclCI ua p) then
      (true, s1.2.1 + 40, s1.2.2 ++ ["vpn_user_agent"]) else s1
  let s3 := if ua = "" then (s2.1, s2.2.1 + 20, s2.2.2 ++ ["missing_user_agent"]) else s2
  let s4 := if al = "" then (s3.1, s3.2.1 + 10, s3.2.2 ++ ["missing_accept_language"]) else s3
  let s5 := if ae = "" then (s4.1, s4.2.1 + 10, s4.2.2 ++ ["missing_accept_encoding"]) else s4
  let s6 := if ua ≠ "" && (decide (ua.length < 20) || !strIncl ua "Mozilla" ||
      strIncl ua "bot" || strIncl ua "crawler") then
      (s5.1, s5.2.1 + 15, s5.2.2 ++ ["suspicious_user_agent_pattern"]) else s5
  if s6.2.1 > 15 then (true, s6.2.1, s6.2.2) else s6

/-- `checkProxy` -/
def checkProxy (ip : String) (r : Req) : CheckResult :=
  if isLegitimateISP ip || isLegitimateService ip then
    { detected := false, riskScore := 0, indicators := ["legitimate_service"],
      source := some "enhanced_proxy_check" }
  else
    let s0 : Bool × ℚ × List String := (false, 0, [])
    let ph := analyzeProxyHeaders r
    let s1 := if ph.1 then (true, s0.2.1 + ph.2.1, s0.2.2 ++ ph.2.2) else s0
    let s2 := if isKnownProxyRange ip then
        (true, s1.2.1 + 50, s1.2.2 ++ ["known_proxy_range"]) else s1
    let s3 := if checkSuspiciousPorts r then
        (s2.1, s2.2.1 + 15, s2.2.2 ++ ["suspicious_ports"]) else s2
    let ua := checkProxyUserAgent r
    let s4 := if ua.1 then (true, s3.2.1 + ua.2.1, s3.2.2 ++ ["proxy_user_agent"]) else s3
    { detected := s4.1, riskScore := s4.2.1, indicators := s4.2.2,
      source := some "enhanced_proxy_check" }

/-- `checkTorHeaders` -/
def checkTorHeaders (r : Req) : Bool × ℚ × List String :=
  ["x-tor-exit-node", "x-tor-relay", "x-onion-location"].foldl
    (fun acc h =>
      if reqHeaderT r h then (true, acc.2.1 + 40, acc.2.2 ++ ["tor_header_" ++ h])
      else acc)
    ((false, 0, []) : Bool × ℚ × List String)

/-- `checkSocksProxy` -/
def checkSocksProxy (r : Req) : Bool × ℚ :=
  let host := reqHeaderD r "host"
  let ua := reqHeaderD r "user-agent"
  let s0 : Bool × ℚ := (false, 0)
  let s1 := if strIncl host ":1080" || strIncl host ":9050" then (true, s0.2 + 30) else s0
  if strIncl ua "SOCKS" || strIncl ua "Proxy" then (s1.1, s1.2 + 20) else s1

/-- `checkTor` -/
def checkTor (ip : String) (r : Req) : CheckResult :=
  let ua := reqHeaderD r "user-agent"
  let s0 : Bool × ℚ × List String := (false, 0, [])
  let s1 := if strIncl ua "Tor Browser" then
      (true, s0.2.1 + 50, s0.2.2 ++ ["tor_browser_ua"]) else s0
  let s2 := if isKnownTorExitNode ip then
      (true, s1.2.1 + 70, s1.2.2 ++ ["tor_exit_node"]) else s1
  let th := checkTorHeaders r
  let s3 := if th.1 then (true, s2.2.1 + th.2.1, s2.2.2 ++ th.2.2) else s2
  let sp := checkSocksProxy r
  let s4 := if sp.1 then (s3.1, s3.2.1 + sp.2, s3.2.2 ++ ["socks_proxy_pattern"]) else s3
  { detected := s4.1, riskScore := s4.2.1, indicators := s4.2.2,
    source := some "enhanced_tor_check" }

/-- `checkBot` -/
def checkBot (_ip : String) (r : Req) : CheckResult :=
  let ua := reqHeaderD r "user-agent"
  let botPats := ["bot", "crawler", "spider", "scraper", "curl", "wget",
                  "python", "requests"]
  let s0 : Bool × ℚ := (false, 0)
  let s1 := if botPats.any (fun p => strInclCI ua p) then (true, s0.2 + 15) else s0
  let s2 := if !reqHeaderT r "accept-language" then (s1.1, s1.2 + 5) else s1
  let s3 := if !reqHeaderT r "accept-encoding" then (s2.1, s2.2 + 5) else s2
  let s4 := if ua = "" then (s3.1, s3.2 + 20) else s3
  let det := if s4.2 > 10 then true else s4.1
  { detected := det, riskScore := s4.2, indicators := [],
    source := some "internal_bot_check" }

/-- `/^172\.(1[6-9]|2[0-9]|3[01])\./` -/
def isPrivate172 (ip : String) : Bool :=
  match ip.data with
  | '1' :: '7' :: '2' :: '.' :: a :: b :: '.' :: _ =>
    (a = '1' && '6' ≤ b && b ≤ '9') || (a = '2' && isDigitC b) ||
    (a = '3' && (b = '0' || b = '1'))
  | _ => false

/-- `checkThreatIntelligence`: private ranges are trusted, everything else
is a safe default. -/
def threatIntelTrusted (ip : String) : Bool :=
  jsStartsWith ip "10." || jsStartsWith ip "192.168." || isPrivate172 ip

/-- Result of `checkReputation`: reputation label, score and detection. -/
structure RepResult where
  detected : Bool
  reputation : String
  riskScore : ℚ
  indicators : List String
  sources : List String
  source : Option String

/-- `checkReputation`: the four sub-checks are the internal blacklist
(ships empty), the threat-intelligence private-range check, and the abuse /
DNS placeholders (safe defaults); then the known-good-IP override. -/
def checkReputation (ip : String) (_r : Req) : RepResult :=
  let s0 : String × ℚ × List String × List String := ("unknown", 0, [], [])
  let s1 :=
    if isKnownBadIP ip then
      ("malicious", s0.2.1 + 90, s0.2.2.1 ++ ["internal_malicious"],
       s0.2.2.2 ++ ["internal_blacklist"])
    else s0
  let s2 :=
    if threatIntelTrusted ip then
      (if s1.1 = "unknown" then "good" else s1.1, s1.2.1, s1.2.2.1,
       s1.2.2.2 ++ ["threat_intel"])
    else s1
  let s3 :=
    if isKnownGoodIP ip then
      ("good", max 0 (s2.2.1 - 50), s2.2.2.1 ++ ["known_good_ip"],
       s2.2.2.2 ++ ["internal_whitelist"])
    else s2
  { detected := s3.1 = "malicious", reputation := s3.1, riskScore := s3.2.1,
    indicators := s3.2.2.1, sources := s3.2.2.2,
    source := some "enhanced_reputation_check" }

/-- `union.*select` (case-insensitive) on an already-lowercased string:
a `select` anywhere after the first `union`. -/
def unionSelect (l : String) : Bool :=
  match afterSub "union".data l.data with
  | some rest => inclAux "select".data rest
  | none => false

/-- One malicious pattern test over a single string. -/
def malPatternHit (s : String) : Bool :=
  strIncl s ".." || unionSelect (jsToLower s) || strInclCI s "<script" ||
    strInclCI s "eval(" || strInclCI s "cmd="

/-- `checkMaliciousActivity` -/
def checkMaliciousActivity (_ip : String) (r : Req) : CheckResult :=
  let hit := malPatternHit r.path || malPatternHit (reqHeaderD r "user-agent")
  { detected := hit, riskScore := if hit then 60 else 0, indicators := [],
    source := some "internal_malicious_check" }

/-- `THREAT_RULES.riskThresholds` -/
structure RiskThresholds where
  minimal : ℚ
  low : ℚ
  medium : ℚ
  high : ℚ

def riskThresholds : RiskThresholds :=
  { minimal := 0, low := 20, medium := 40, high := 80 }

/-- `calculateRiskLevel` -/
def calculateRiskLevel (score : ℚ) : String :=
  if score ≥ riskThresholds.high then "high"
  else if score ≥ riskThresholds.medium then "medium"
  else if score ≥ riskThresholds.low then "low"
  else "minimal"

/-- `THREAT_RULES.riskWeights` lookup for `<name>Pattern` keys: only
`botPattern` and `maliciousPattern` exist. -/
def riskWeightFor (name : String) : Option ℚ :=
  if name = "bot" then some 15
  else if name = "malicious" then some 60
  else none

/-- The per-check score contribution in `getThreatInfo`:
`riskWeights[name+"Pattern"] || data.riskScore || 10` for a detected check. -/
def checkContribution (name : String) (detected : Bool) (risk : ℚ) : ℚ :=
  if detected then
    match riskWeightFor name with
    | some w => w
    | none => if risk = 0 then 10 else risk
  else 0

/-- The fused assessment. -/
structure ThreatInfo where
  ip : String
  riskScore : ℚ
  threats : List String
  isVPN : Bool
  isProxy : Bool
  isTor : Bool
  isBot : Bool
  isMalicious : Bool
  reputation : String
  riskLevel : String
  sources : List String

/-- `getThreatInfo`: runs the six checks (all total in the model, so every
`Promise.allSettled` slot is fulfilled), accumulates the weighted score of
the detected ones in check order, sets each boolean flag from its single
producing check, and classifies the final score. -/
def getThreatInfo (ip : String) (r : Req) : ThreatInfo :=
  let v := checkVPN ip r
  let p := checkProxy ip r
  let t := checkTor ip r
  let b := checkBot ip r
  let rep := checkReputation ip r
  let m := checkMaliciousActivity ip r
  let score :=
    checkContribution "vpn" v.detected v.riskScore +
    checkContribution "proxy" p.detected p.riskScore +
    checkContribution "tor" t.detected t.riskScore +
    checkContribution "bot" b.detected b.riskScore +
    checkContribution "reputation" rep.detected rep.riskScore +
    checkContribution "malicious" m.detected m.riskScore
  let threats :=
    (if v.detected then ["vpn"] else []) ++
    (if p.detected then ["proxy"] else []) ++
    (if t.detected then ["tor"] else []) ++
    (if b.detected then ["bot"] else []) ++
    (if rep.detected then ["reputation"] else []) ++
    (if m.detected then ["malicious"] else [])
  { ip := ip, riskScore := score, threats := threats,
    isVPN := v.detected, isProxy := p.detected, isTor := t.detected,
    isBot := b.detected, isMalicious := m.detected,
    reputation := rep.reputation,
    riskLevel := calculateRiskLevel score,
    sources := ["enhanced_vpn_check", "enhanced_proxy_check",
                "enhanced_tor_check", "internal_bot_check",
                "enhanced_reputation_check", "internal_malicious_check"] }

/-! ## `services/geoService.js`

Number/string coercions used by `sanitizeGeoValue`.  The providers deliver
coordinates and ASNs as numbers or plain decimal strings; accordingly
`parseFloat`/`parseInt` are modelled for decimal literals (no exponent or
hexadecimal forms, which no provider emits), and `String(value)` formats
integral numbers exactly (non-integral formatting is irrelevant to every
statement below, as non-string scalars never reach the string branches on
provider data). -/

def digitsVal (l : List Char) : ℕ :=
  l.foldl (fun a c => 10 * a + (c.toNat - 48)) 0

/-- `parseFloat` on a string: optional sign, integer digits, optional
fraction; trailing garbage ignored; `none` models `NaN`. -/
def strParseFloat (s : String) : Option ℚ :=
  let l := s.data.dropWhile (fun c => c = ' ' || c = '\t' || c = '\n' || c = '\r')
  let sgn : ℚ × List Char :=
    match l with
    | '-' :: r => (-1, r)
    | '+' :: r => (1, r)
    | r => (1, r)
  let p := digitSpan sgn.2
  match p.2 with
  | '.' :: r2 =>
    let f := digitSpan r2
    if p.1.isEmpty && f.1.isEmpty then none
    else some (sgn.1 * ((digitsVal p.1 : ℚ) + (digitsVal f.1 : ℚ) / 10 ^ f.1.length))
  | _ => if p.1.isEmpty then none else some (sgn.1 * (digitsVal p.1 : ℚ))

/-- `parseInt` on a string (decimal): optional sign then leading digits. -/
def strParseInt (s : String) : Option ℤ :=
  let l := s.data.dropWhile (fun c => c = ' ' || c = '\t' || c = '\n' || c = '\r')
  let sgn : ℤ × List Char :=
    match l with
    | '-' :: r => (-1, r)
    | '+' :: r => (1, r)
    | r => (1, r)
  let p := digitSpan sgn.2
  if p.1.isEmpty then none else some (sgn.1 * (digitsVal p.1 : ℤ))

/-- Truncation toward zero, as `parseInt` applied to a number's decimal
representation. -/
def truncQ (q : ℚ) : ℤ := if 0 ≤ q then ⌊q⌋ else -⌊-q⌋

/-- `parseFloat(value)` for a JS value. -/
def parseFloatJS : JVal → Option ℚ
  | .jnum q => some q
  | .jstr s => strParseFloat s
  | _ => none

/-- `parseInt(value)` for a JS value. -/
def parseIntJS : JVal → Option ℤ
  | .jnum q => some (truncQ q)
  | .jstr s => strParseInt s
  | _ => none

/-- Decimal formatting of an integer. -/
def intRepr (n : ℤ) : String :=
  if n < 0 then "-" ++ Nat.repr n.natAbs else Nat.repr n.natAbs

/-- `String(value)` (see the section comment for its scope). -/
def jsStringOf : JVal → String
  | .jnull => "null"
  | .jbool true => "true"
  | .jbool false => "false"
  | .jstr s => s
  | .jnum q => if q.den = 1 then intRepr q.num else intRepr q.num ++ "/" ++ Nat.repr q.den
  | .jarr ss => String.intercalate "," ss
  | .jobj _ => "[object Object]"

/-- The character class kept by the `postalCode` sanitizer,
`[a-zA-Z0-9\s-]`. -/
def postalKeep (c : Char) : Bool :=
  isDigitC c || ('a' ≤ c && c ≤ 'z') || ('A' ≤ c && c ≤ 'Z') ||
    c = ' ' || c = '\t' || c = '\n' || c = '\r' || c = '-'

/-- `sanitizeGeoValue(key, value)` -/
def sanitizeGeoValue (k : String) (v : JVal) : JVal :=
  if isJNull v then .jnull
  else if k = "ip" then
    match v with
    | .jstr s => .jstr (jsTrim s)
    | _ => .jstr (jsStringOf v)
  else if k = "latitude" || k = "longitude" then
    match parseFloatJS v with
    | some q => .jnum q
    | none => .jnull
  else if k = "asn" then
    match parseIntJS v with
    | some n => if n < 0 then .jnull else .jnum n
    | none => .jnull
  else if k = "countryCode" || k = "regionCode" || k = "continentCode" then
    match v with
    | .jstr s => .jstr (jsTrim (jsToUpper s))
    | _ => .jnull
  else if k = "city" || k = "region" || k = "country" || k = "continent" ||
      k = "isp" || k = "organization" || k = "domain" then
    match v with
    | .jstr s => .jstr (jsTrim s)
    | _ => .jstr (jsStringOf v)
  else if k = "postalCode" then
    match v with
    | .jstr s => .jstr (String.mk ((jsTrim s).data.filter postalKeep))
    | _ => .jnull
  else v

/-- `getFlag(countryCode)`: regional-indicator pair for a 2-letter code. -/
def getFlag (v : JVal) : JVal :=
  match v with
  | .jstr s =>
    if s.length ≠ 2 then .jnull
    else .jstr (String.mk ((jsToUpper s).data.map (fun c => Char.ofNat (127397 + c.toNat))))
  | _ => .jnull

/-- `ValidationOutcome` of `validateGeoData`. -/
structure Validation where
  score : ℚ
  issues : List String
  isValid : Bool

/-- The sequential score deductions of `validateGeoData`, abstracted over
its five penalty conditions and the number of missing required fields. -/
def scoreChain (b1 b2 b3 b4 b5 : Bool) (m : ℕ) : ℚ :=
  let s1 : ℚ := if b1 then 1 - 0.2 else 1
  let s2 := if b2 then s1 - 0.1 else s1
  let s3 := if b3 then s2 - 0.1 else s2
  let s4 := if b4 then s3 - 0.1 else s3
  let s5 := if b5 then s4 - 0.05 else s4
  if m > 0 then s5 - m * 0.1 else s5

/-- `validateGeoData(data)`: sequential penalties starting from 1.0.
The coordinate block runs only when `data.latitude !== null &&
data.longitude !== null` — true in particular when a coordinate key is
absent (`undefined !== null`). -/
def validateGeoData (data : Obj) : Validation :=
  let ipOk :=
    jsTruthyO (objGet data "ip") &&
      (match objGet data "ip" with
       | some (.jstr s) => isValidIP s
       | _ => false)
  let coords := notNullRead data "latitude" && notNullRead data "longitude"
  let latBad :=
    match objGet data "latitude" with
    | some (.jnum q) => decide (q < -90) || decide (q > 90)
    | _ => true
  let lonBad :=
    match objGet data "longitude" with
    | some (.jnum q) => decide (q < -180) || decide (q > 180)
    | _ => true
  let ccBad :=
    jsTruthyO (objGet data "countryCode") &&
      !(match objGet data "countryCode" with
        | some (.jstr s) => decide (s.length = 2)
        | _ => false)
  let asnBad :=
    jsTruthyO (objGet data "asn") &&
      !(match objGet data "asn" with
        | some (.jnum q) => decide (0 ≤ q)
        | _ => false)
  let missing := (["ip", "country", "countryCode"].filter
    (fun f => !jsTruthyO (objGet data f)))
  let s6 := scoreChain (!ipOk) (coords && latBad) (coords && lonBad) ccBad asnBad
    missing.length
  let issues :=
    (if !ipOk then ["Invalid or missing IP address"] else []) ++
    (if coords && latBad then ["Invalid latitude value"] else []) ++
    (if coords && lonBad then ["Invalid longitude value"] else []) ++
    (if ccBad then ["Invalid country code format"] else []) ++
    (if asnBad then ["Invalid ASN value"] else []) ++
    (if missing.length > 0 then
      ["Missing required fields: " ++ String.intercalate ", " missing] else [])
  { score := max 0 s6, issues := issues, isValid := decide (s6 > 0.5) }

/-- A provider's static identity (`name`, `priority`). -/
structure Provider where
  name : String
  priority : ℚ

/-- `getProviders()` sorted by descending priority:
Cloudflare 100, MaxMind 80, IPInfo 60 (`PROVIDERS_CONFIG.priorities`). -/
def providersSorted : List Provider :=
  [{ name := "Cloudflare", priority := 100 },
   { name := "MaxMind", priority := 80 },
   { name := "IPInfo", priority := 60 }]

/-- One settled fan-out slot: a rejected promise, or a fulfilled one whose
value is `null` (`none`) or a data object. -/
inductive ProviderOutcome where
  | rejected : ProviderOutcome
  | fulfilled (v : Option Obj) : ProviderOutcome

/-- `SourceAttribution` pushed by the merge. -/
structure SourceEntry where
  provider : String
  priority : ℚ
  validationScore : ℚ
  fields : List String
  issues : List String

/-- Mutable state of `mergeGeoResults` while folding over the settled
results: the merged key/value map (including the `confidence` key), the
rich `sources` array, the shared `_lastPriority` scalar (`none` while the
key does not exist yet) and the `validationResults` accumulator. -/
structure MState where
  fields : Obj
  sources : List SourceEntry
  lastPriority : Option ℚ
  validationResults : List (String × Validation)

/-- The `merged` object literal at the top of `mergeGeoResults`. -/
def initialMergedFields : Obj :=
  [("ip", .jnull), ("city", .jnull), ("region", .jnull), ("regionCode", .jnull),
   ("country", .jnull), ("countryCode", .jnull), ("countryRegion", .jnull),
   ("continent", .jnull), ("continentCode", .jnull), ("latitude", .jnull),
   ("longitude", .jnull), ("accuracy", .jnull), ("timezone", .jnull),
   ("postalCode", .jnull), ("flag", .jnull), ("asn", .jnull),
   ("asOrganization", .jnull), ("isp", .jnull), ("organization", .jnull),
   ("domain", .jnull), ("usageType", .jnull), ("confidence", .jobj [])]

def initialMState : MState :=
  { fields := initialMergedFields, sources := [], lastPriority := none,
    validationResults := [] }

/-- One iteration of `Object.keys(data).forEach` in the merge: skip `null`
values and the `provider`/`sources`/`dataQuality` keys; otherwise overwrite
the field when it is falsy or when `provider.priority * validation.score`
strictly exceeds the shared `_lastPriority || 0`, updating `_lastPriority`
on every write. -/
def fieldStep (p : Provider) (sc : ℚ) (st : MState) (kv : String × JVal) : MState :=
  if isJNull kv.2 || kv.1 = "provider" || kv.1 = "sources" || kv.1 = "dataQuality" then st
  else
    let current := st.lastPriority.getD 0
    let newP := p.priority * sc
    if !jsTruthyO (objGet st.fields kv.1) || newP > current then
      { st with fields := objSet st.fields kv.1 (sanitizeGeoValue kv.1 kv.2),
                lastPriority := some newP }
    else st

/-- `merged.confidence[confKey].priority || 0` -/
def confPriority (v : Option JVal) : ℚ :=
  match v with
  | some (.jobj e) =>
    match objGet e "priority" with
    | some (.jnum q) => q
    | _ => 0
  | _ => 0

/-- One entry of the `data.confidence` sub-merge. -/
def confEntryStep (p : Provider) (acc : MState) (ckv : String × JVal) : MState :=
  if isJNull ckv.2 then acc
  else
    match objGet acc.fields "confidence" with
    | some (.jobj mkvs) =>
      let existing := objGet mkvs ckv.1
      if !jsTruthyO existing || p.priority > confPriority existing then
        { acc with
          fields :=
            (objSet acc.fields "confidence"
              (.jobj (objSet mkvs ckv.1
                (.jobj [("value", ckv.2), ("priority", .jnum p.priority),
                        ("source", .jstr p.name)])))) }
      else acc
    | _ => acc

/-- The `data.confidence` sub-merge.  Every provider that emits a
`confidence` key emits it as an object literal, so only the object case
acts. -/
def confidenceStep (p : Provider) (st : MState) (data : Obj) : MState :=
  match objGet data "confidence" with
  | some (.jobj kvs) => kvs.foldl (confEntryStep p) st
  | _ => st

/-- Processing of one settled result in `mergeGeoResults`. -/
def mergeStep (st : MState) (pr : Provider × ProviderOutcome) : MState :=
  match pr.2 with
  | .fulfilled (some data) =>
    let validation := validateGeoData data
    let st1 := { st with
      validationResults := st.validationResults ++ [(pr.1.name, validation)] }
    let st2 := data.foldl (fieldStep pr.1 validation.score) st1
    let st3 := confidenceStep pr.1 st2 data
    { st3 with sources := st3.sources ++
        [{ provider := pr.1.name, priority := pr.1.priority,
           validationScore := validation.score,
           fields := (data.filter (fun kv => !isJNull kv.2)).map (fun kv => kv.1),
           issues := validation.issues }] }
  | _ => st

def mergeCore (results : List ProviderOutcome) : MState :=
  (providersSorted.zip results).foldl mergeStep initialMState

/-- `Math.round` -/
def jsRound (q : ℚ) : ℤ := ⌊q + 1 / 2⌋

/-- `Math.round(x * 100) / 100` -/
def round2 (q : ℚ) : ℚ := (jsRound (q * 100) : ℚ) / 100

/-- The `dataQuality` record. -/
structure Quality where
  completeness : ℚ
  consistency : ℚ
  accuracy : ℚ
  overall : ℚ

/-- `calculateDataQuality(merged, validationResults)`: the counted keys are
`Object.keys(merged)` minus `sources`/`dataQuality`/`confidence` — which
still includes the `_lastPriority` bookkeeping key whenever some field has
been written (the deletion happens only after this call). -/
def calculateDataQuality (st : MState) : Quality :=
  let declared := st.fields.filter
    (fun kv => !(kv.1 = "sources" || kv.1 = "dataQuality" || kv.1 = "confidence"))
  let lp : ℕ := if st.lastPriority.isSome then 1 else 0
  let totalFields := declared.length + lp
  let filledFields := (declared.filter (fun kv => !isJNull kv.2)).length + lp
  let completeness : ℚ :=
    if totalFields > 0 then (filledFields : ℚ) / totalFields else 0
  let n := st.validationResults.length
  let avg : ℚ :=
    if n > 0 then (st.validationResults.map (fun vr => vr.2.score)).sum / n else 0
  let consistency : ℚ := if n > 1 then min 1 (avg * 1.2) else avg
  { completeness := round2 completeness, consistency := round2 consistency,
    accuracy := round2 avg,
    overall := round2 ((completeness + consistency + avg) / 3) }

/-- The merged record returned by `mergeGeoResults` (after the
`_lastPriority` cleanup). -/
structure MergedRecord where
  fields : Obj
  sources : List SourceEntry
  dataQuality : Quality

/-- `mergeGeoResults(results, providers)` -/
def mergeGeoResults (results : List ProviderOutcome) : MergedRecord :=
  let st := mergeCore results
  let dq := calculateDataQuality st
  let cc := (objGet st.fields "countryCode").getD .jnull
  let fields :=
    if jsTruthy cc && !jsTruthyO (objGet st.fields "flag") then
      objSet st.fields "flag" (getFlag cc)
    else st.fields
  { fields := fields, sources := st.sources, dataQuality := dq }

/-- `String.prototype.padStart(2, "0")` -/
def pad2 (s : String) : String :=
  if s.length ≥ 2 then s else if s.length = 1 then "0" ++ s else "00"

/-- `getTimezoneFromCoordinates(lat, lon)` -/
def getTimezoneFromCoordinates (_lat lon : JVal) : JVal :=
  match parseFloatJS lon with
  | none => .jnull
  | some q =>
    let offset := jsRound (q / 15)
    let sign := if offset ≥ 0 then "+" else "-"
    .jstr ("UTC" ++ sign ++ pad2 (Nat.repr offset.natAbs) ++ ":00")

/-- `getCurrencyFromCountry(countryCode)` -/
def getCurrencyFromCountry (v : JVal) : JVal :=
  match v with
  | .jstr s =>
    if s = "US" then .jobj [("code", .jstr "USD"), ("name", .jstr "US Dollar"), ("symbol", .jstr "$")]
    else if s = "GB" then .jobj [("code", .jstr "GBP"), ("name", .jstr "British Pound"), ("symbol", .jstr "£")]
    else if s = "EU" then .jobj [("code", .jstr "EUR"), ("name", .jstr "Euro"), ("symbol", .jstr "€")]
    else if s = "JP" then .jobj [("code", .jstr "JPY"), ("name", .jstr "Japanese Yen"), ("symbol", .jstr "¥")]
    else if s = "CN" then .jobj [("code", .jstr "CNY"), ("name", .jstr "Chinese Yuan"), ("symbol", .jstr "¥")]
    else if s = "CA" then .jobj [("code", .jstr "CAD"), ("name", .jstr "Canadian Dollar"), ("symbol", .jstr "C$")]
    else if s = "AU" then .jobj [("code", .jstr "AUD"), ("name", .jstr "Australian Dollar"), ("symbol", .jstr "A$")]
    else if s = "IN" then .jobj [("code", .jstr "INR"), ("name", .jstr "Indian Rupee"), ("symbol", .jstr "₹")]
    else if s = "BR" then .jobj [("code", .jstr "BRL"), ("name", .jstr "Brazilian Real"), ("symbol", .jstr "R$")]
    else if s = "RU" then .jobj [("code", .jstr "RUB"), ("name", .jstr "Russian Ruble"), ("symbol", .jstr "₽")]
    else .jnull
  | _ => .jnull

/-- `getLanguagesFromCountry(countryCode)` -/
def getLanguagesFromCountry (v : JVal) : JVal :=
  match v with
  | .jstr s =>
    if s = "US" then .jarr ["en"] else if s = "GB" then .jarr ["en"]
    else if s = "CA" then .jarr ["en", "fr"] else if s = "FR" then .jarr ["fr"]
    else if s = "DE" then .jarr ["de"] else if s = "ES" then .jarr ["es"]
    else if s = "IT" then .jarr ["it"] else if s = "JP" then .jarr ["ja"]
    else if s = "CN" then .jarr ["zh"] else if s = "RU" then .jarr ["ru"]
    else if s = "BR" then .jarr ["pt"] else if s = "IN" then .jarr ["hi", "en"]
    else if s = "MX" then .jarr ["es"] else if s = "AR" then .jarr ["es"]
    else if s = "KR" then .jarr ["ko"] else if s = "NL" then .jarr ["nl"]
    else if s = "SE" then .jarr ["sv"] else if s = "NO" then .jarr ["no"]
    else if s = "DK" then .jarr ["da"] else if s = "FI" then .jarr ["fi"]
    else .jarr []
  | _ => .jarr []

/-- The `threat` sub-field: a fused assessment, or the
`{error: "Threat detection unavailable"}` marker substituted when the
threat engine throws. -/
inductive ThreatField where
  | assessment (t : ThreatInfo) : ThreatField
  | unavailable : ThreatField

/-- The per-request success attribution written over `geoInfo.sources`. -/
structure SimpleSource where
  provider : String
  priority : ℚ

/-- The record returned by `getGeoInfo`. -/
structure GeoRecord where
  fields : Obj
  threat : Option ThreatField
  timestamp : String
  sources : List SimpleSource
  dataQuality : Quality

/-- `getGeoInfo(ip, request, options)`: the settled fan-out results and the
outcome of the threat engine (which may fail, `Except.error`) are explicit
arguments; the validation failure and the surrounding `catch` both collapse
into the generic error message the caller observes. -/
def getGeoInfo (ip : String) (results : List ProviderOutcome)
    (includeThreat : Bool) (threatOutcome : Except Unit ThreatInfo)
    (ts : String) : Except String GeoRecord :=
  if !isValidIP ip then .error "Failed to get geolocation information"
  else
    let m := mergeGeoResults results
    let threat : Option ThreatField :=
      if includeThreat then
        some (match threatOutcome with
              | .ok t => .assessment t
              | .error _ => .unavailable)
      else none
    let f1 := objSet m.fields "ip" (.jstr ip)
    let successSources := (providersSorted.zip results).filterMap
      (fun pr => match pr.2 with
        | .rejected => none
        | .fulfilled _ => some { provider := pr.1.name, priority := pr.1.priority })
    let lat := (objGet f1 "latitude").getD .jnull
    let lon := (objGet f1 "longitude").getD .jnull
    let f2 :=
      if jsTruthy lat && jsTruthy lon then
        objSet f1 "timezone" (getTimezoneFromCoordinates lat lon)
      else f1
    let country := (objGet f2 "country").getD .jnull
    let f3 :=
      if jsTruthy country then objSet f2 "currency" (getCurrencyFromCountry country)
      else f2
    let f4 :=
      if jsTruthy country then objSet f3 "languages" (getLanguagesFromCountry country)
      else f3
    .ok { fields := f4, threat := threat, timestamp := ts,
          sources := successSources, dataQuality := m.dataQuality }

/-! ## Projections of `getGeoInfo`'s result, and spec-side models -/

def recFields (e : Except String GeoRecord) : Obj :=
  match e with
  | .ok r => r.fields
  | .error _ => []

def recIsOk (e : Except String GeoRecord) : Bool :=
  match e with
  | .ok _ => true
  | .error _ => false

def recThreat (e : Except String GeoRecord) : Option (Option ThreatField) :=
  match e with
  | .ok r => some r.threat
  | .error _ => none

def recSources (e : Except String GeoRecord) : Option (List SimpleSource) :=
  match e with
  | .ok r => some r.sources
  | .error _ => none

def recQuality (e : Except String GeoRecord) : Option Quality :=
  match e with
  | .ok r => some r.dataQuality
  | .error _ => none

/-- Modelled from the spec (for comparison with `mergeGeoResults`): the
per-field merge rule — among the providers whose fulfilled result carries a
non-null value for field `k`, the one with the highest
`priority × validationScore` wins, each field judged independently, earlier
providers winning ties (a later provider must strictly exceed). -/
def specPerFieldWinner (results : List ProviderOutcome) (k : String) : Option JVal :=
  let contributions := (providersSorted.zip results).filterMap
    (fun pr =>
      match pr.2 with
      | .fulfilled (some d) =>
        match objGet d k with
        | some v =>
          if isJNull v then none
          else some (pr.1.priority * (validateGeoData d).score, v)
        | none => none
      | _ => none)
  (contributions.foldl
    (fun best c =>
      match best with
      | none => some c
      | some b => if c.1 > b.1 then some c else some b)
    none).map (fun c => sanitizeGeoValue k c.2)

/-- Modelled from the spec (for comparison with `validateGeoData`): the
claimed validation score — 1.0, minus 0.2 for an absent or malformed ip,
minus 0.1 for a numeric latitude outside [-90, 90], minus 0.1 for a numeric
longitude outside [-180, 180], minus 0.1 for a malformed 2-letter country
code, minus 0.05 for a negative or non-numeric ASN, minus 0.1 per missing
required field, clamped to [0, 1]. -/
def specValidationScoreC4 (data : Obj) : ℚ :=
  let ipOk :=
    jsTruthyO (objGet data "ip") &&
      (match objGet data "ip" with
       | some (.jstr s) => isValidIP s
       | _ => false)
  let latOut :=
    match objGet data "latitude" with
    | some (.jnum q) => decide (q < -90) || decide (q > 90)
    | _ => false
  let lonOut :=
    match objGet data "longitude" with
    | some (.jnum q) => decide (q < -180) || decide (q > 180)
    | _ => false
  let ccBad :=
    jsTruthyO (objGet data "countryCode") &&
      !(match objGet data "countryCode" with
        | some (.jstr s) => decide (s.length = 2)
        | _ => false)
  let asnBad :=
    jsTruthyO (objGet data "asn") &&
      !(match objGet data "asn" with
        | some (.jnum q) => decide (0 ≤ q)
        | _ => false)
  let missing := (["ip", "country", "countryCode"].filter
    (fun f => !jsTruthyO (objGet data f)))
  let p : ℚ :=
    (if ipOk then 0 else 0.2) + (if latOut then 0.1 else 0) +
    (if lonOut then 0.1 else 0) + (if ccBad then 0.1 else 0) +
    (if asnBad then 0.05 else 0) + missing.length * 0.1
  min 1 (max 0 (1 - p))

/-- Modelled from the spec (for comparison with `calculateDataQuality`):
`completeness = filledFields / totalDeclaredFields` exactly, over the
declared output fields of the returned record (the `confidence` map is not
a scalar field). -/
def specExactCompleteness (r : MergedRecord) : ℚ :=
  let declared := r.fields.filter (fun kv => !(kv.1 = "confidence"))
  if declared.length > 0 then
    ((declared.filter (fun kv => !isJNull kv.2)).length : ℚ) / declared.length
  else 0

/-- The contributing providers' validation outcomes, read off the settled
results directly (spec-level description of `validationResults`). -/
def contributedValidations (results : List ProviderOutcome) :
    List (String × Validation) :=
  (providersSorted.zip results).filterMap
    (fun pr =>
      match pr.2 with
      | .fulfilled (some d) => some (pr.1.name, validateGeoData d)
      | _ => none)

/-- The `filledFields / totalFields` ratio as `calculateDataQuality`
actually counts it: over the merge state's keys minus
`sources`/`dataQuality`/`confidence`, plus the `_lastPriority` bookkeeping
key when present. -/
def bookkeptCompleteness (st : MState) : ℚ :=
  let declared := st.fields.filter
    (fun kv => !(kv.1 = "sources" || kv.1 = "dataQuality" || kv.1 = "confidence"))
  let lp : ℕ := if st.lastPriority.isSome then 1 else 0
  if declared.length + lp > 0 then
    (((declared.filter (fun kv => !isJNull kv.2)).length + lp : ℕ) : ℚ) /
      (declared.length + lp)
  else 0

/-- The total penalty `validateGeoData` subtracts from 1.0: the claimed
amounts under the code's own conditions (coordinate penalties gated on
`!== null` of both coordinates). -/
def specPenaltyC4 (data : Obj) : ℚ :=
  (if !(jsTruthyO (objGet data "ip") &&
       (match objGet data "ip" with
        | some (.jstr s) => isValidIP s
        | _ => false)) then (0.2 : ℚ) else 0) +
  (if (notNullRead data "latitude" && notNullRead data "longitude") &&
       (match objGet data "latitude" with
        | some (.jnum q) => decide (q < -90) || decide (q > 90)
        | _ => true) then (0.1 : ℚ) else 0) +
  (if (notNullRead data "latitude" && notNullRead data "longitude") &&
       (match objGet data "longitude" with
        | some (.jnum q) => decide (q < -180) || decide (q > 180)
        | _ => true) then (0.1 : ℚ) else 0) +
  (if jsTruthyO (objGet data "countryCode") &&
       !(match objGet data "countryCode" with
         | some (.jstr s) => decide (s.length = 2)
         | _ => false) then (0.1 : ℚ) else 0) +
  (if jsTruthyO (objGet data "asn") &&
       !(match objGet data "asn" with
         | some (.jnum q) => decide (0 ≤ q)
         | _ => false) then (0.05 : ℚ) else 0) +
  ((["ip", "country", "countryCode"].filter
      (fun f => !jsTruthyO (objGet data f))).length : ℚ) * (0.1 : ℚ)

/-- The mean contributing validation score, read off the settled results
(spec-level description of `accuracy` before rounding). -/
def specAccuracy (results : List ProviderOutcome) : ℚ :=
  let vrs := contributedValidations results
  if vrs.length > 0 then (vrs.map (fun vr => vr.2.score)).sum / vrs.length else 0

/-- The claimed consistency rule before rounding: `min 1 (accuracy × 1.2)`
with more than one contributor, else the accuracy itself. -/
def specConsistency (results : List ProviderOutcome) : ℚ :=
  if (contributedValidations results).length > 1 then
    min 1 (specAccuracy results * 1.2)
  else specAccuracy results

/-- The mean of completeness, consistency and accuracy before rounding. -/
def specOverall (results : List ProviderOutcome) : ℚ :=
  (bookkeptCompleteness (mergeCore results) + specConsistency results +
    specAccuracy results) / 3

/-! ## Concrete inputs used by the counterexamples and evaluations -/

/-- A low-quality result on the highest-priority provider slot: validation
score 0.3, weight 100 × 0.3 = 30. -/
def c1CfData : Obj := [("city", .jstr "X"), ("region", .jstr "R")]

/-- A perfect result on the second slot: validation score 1, weight
80 × 1 = 80. -/
def c1MmData : Obj :=
  [("ip", .jstr "8.8.8.8"), ("city", .jstr "Y"), ("region", .jstr "S"),
   ("country", .jstr "United States"), ("countryCode", .jstr "US"),
   ("latitude", .jnum 37), ("longitude", .jnum (-122))]

def c1Input : List ProviderOutcome :=
  [.fulfilled (some c1CfData), .fulfilled (some c1MmData), .rejected]

/-- A request whose X-Forwarded-For chain has three hops. -/
def c2Req : Req :=
  { headers := [("x-forwarded-for", "1.1.1.1, 2.2.2.2, 3.3.3.3")], path := "/" }

/-- A request with no headers. -/
def emptyReq : Req := { headers := [], path := "/" }

/-- A result carrying ip/country/countryCode but no coordinate keys. -/
def c4Data : Obj :=
  [("ip", .jstr "8.8.8.8"), ("country", .jstr "United States"),
   ("countryCode", .jstr "US")]

def c5Input : List ProviderOutcome := [.rejected, .fulfilled (some c4Data), .rejected]

/-- A result supplying an authoritative timezone together with in-range
coordinates. -/
def c6Data : Obj :=
  [("ip", .jstr "8.8.8.8"), ("country", .jstr "United States"),
   ("countryCode", .jstr "US"), ("latitude", .jnum 40),
   ("longitude", .jnum (-74)), ("timezone", .jstr "America/Chicago")]

def c6Input : List ProviderOutcome := [.fulfilled (some c6Data), .rejected, .rejected]

/-! ## General lemmas about the object model -/

theorem objGet_objSet_self (o : Obj) (k : String) (v : JVal) :
    objGet (objSet o k v) k = some v := by
  induction o with
  | nil => simp [objSet, objGet]
  | cons hd tl ih =>
    by_cases h : hd.1 = k
    · simp [objSet, objGet, h]
    · simp [objSet, objGet, h, ih]

theorem objGet_objSet_ne (o : Obj) (k k' : String) (v : JVal) (h : k' ≠ k) :
    objGet (objSet o k' v) k = objGet o k := by
  induction o with
  | nil => simp [objSet, objGet, h]
  | cons hd tl ih =>
    by_cases hh : hd.1 = k'
    · simp [objSet, objGet, hh, h]
    · by_cases hk : hd.1 = k
      · simp [objSet, objGet, hh, hk, Ne.symm h]
      · simp [objSet, objGet, hh, hk, ih]

/-! ## The score chain of `validateGeoData` in closed form -/

theorem scoreChain_formula (b1 b2 b3 b4 b5 : Bool) (m : ℕ) :
    scoreChain b1 b2 b3 b4 b5 m =
      1 - ((if b1 then (0.2:ℚ) else 0) + (if b2 then 0.1 else 0) +
           (if b3 then 0.1 else 0) + (if b4 then 0.1 else 0) +
           (if b5 then 0.05 else 0) + m * 0.1) := by
  unfold scoreChain
  rcases Nat.eq_zero_or_pos m with hm | hm <;>
    cases b1 <;> cases b2 <;> cases b3 <;> cases b4 <;> cases b5 <;>
      simp_all <;> ring_nf

theorem scoreChain_penalty_nonneg (b1 b2 b3 b4 b5 : Bool) (m : ℕ) :
    0 ≤ (if b1 then (0.2:ℚ) else 0) + (if b2 then 0.1 else 0) +
        (if b3 then 0.1 else 0) + (if b4 then 0.1 else 0) +
        (if b5 then 0.05 else 0) + m * 0.1 := by
  cases b1 <;> cases b2 <;> cases b3 <;> cases b4 <;> cases b5 <;> simp <;> positivity

/-! ## Claim C1 -/

set_option maxRecDepth 4096 in
theorem c1CfDataValidation : validateGeoData c1CfData =
    { score := 3/10,
      issues := ["Invalid or missing IP address", "Invalid latitude value",
                 "Invalid longitude value",
                 "Missing required fields: ip, country, countryCode"],
      isValid := false } := by
  simp +decide [validateGeoData, scoreChain, c1CfData, objGet, jsTruthy,
    jsTruthyO, notNullRead, isJNull, isValidIP, String.length]
  norm_num

set_option maxRecDepth 4096 in
theorem c1MmDataValidation : validateGeoData c1MmData =
    { score := 1, issues := [], isValid := true } := by
  simp +decide [validateGeoData, scoreChain, c1MmData, objGet, jsTruthy,
    jsTruthyO, notNullRead, isJNull, isValidIP, valid4, digitSpan, isDigitC,
    octetMatch, String.length]
  norm_num

set_option maxRecDepth 8192 in
theorem c1MergedKeepsLowWeightValues :
    objGet (mergeGeoResults c1Input).fields "city" = some (.jstr "X") ∧
    objGet (mergeGeoResults c1Input).fields "region" = some (.jstr "R") := by
  constructor <;>
  · simp +decide [mergeGeoResults, mergeCore, providersSorted, c1Input,
      mergeStep, c1CfDataValidation, c1MmDataValidation, fieldStep,
      confidenceStep, initialMState, initialMergedFields, sanitizeGeoValue,
      objGet, objSet, jsTruthy, jsTruthyO, isJNull, getFlag, jsTrim, jsToUpper,
      isWsC, upChar, c1CfData, c1MmData, String.length, parseFloatJS]
    try norm_num

set_option maxRecDepth 4096 in
theorem c1SpecWinnerTakesHighWeightValues :
    specPerFieldWinner c1Input "city" = some (.jstr "Y") ∧
    specPerFieldWinner c1Input "region" = some (.jstr "S") := by
  have hcf := c1CfDataValidation
  have hmm := c1MmDataValidation
  simp only [c1CfData] at hcf
  simp only [c1MmData] at hmm
  constructor
  · simp +decide [specPerFieldWinner, providersSorted, c1Input, c1CfData,
      c1MmData, hcf, hmm, objGet, isJNull]
    rw [if_pos (by norm_num : (100:ℚ) * (3/10) < 80)]
    exact ⟨80, .jstr "Y", rfl, rfl⟩
  · simp +decide [specPerFieldWinner, providersSorted, c1Input, c1CfData,
      c1MmData, hcf, hmm, objGet, isJNull]
    rw [if_pos (by norm_num : (100:ℚ) * (3/10) < 80)]
    exact ⟨80, .jstr "S", rfl, rfl⟩

/-- Claim C1: the merge is not per-field — the source keeps one shared
`_lastPriority` scalar, so after the first provider (weight
100 × 0.3 = 30) fills `city`/`region` and the second provider (weight
80 × 1 = 80) overwrites `ip`, the scalar is already 80 and the second
provider's `city`/`region` (weight 80 > per-field weight 30) are refused:
the merged record keeps `"X"`/`"R"` although the spec's per-field rule
(`specPerFieldWinner`) selects `"Y"`/`"S"`. -/
theorem c1_merge_not_per_field :
    (validateGeoData c1CfData).score * 100 = 30 ∧
    (validateGeoData c1MmData).score * 80 = 80 ∧
    ((30:ℚ) < 80) ∧
    objGet (mergeGeoResults c1Input).fields "city" = some (.jstr "X") ∧
    objGet (mergeGeoResults c1Input).fields "region" = some (.jstr "R") ∧
    specPerFieldWinner c1Input "city" = some (.jstr "Y") ∧
    specPerFieldWinner c1Input "region" = some (.jstr "S") :=
  ⟨by rw [c1CfDataValidation]; norm_num,
   by rw [c1MmDataValidation]; norm_num,
   by norm_num,
   c1MergedKeepsLowWeightValues.1, c1MergedKeepsLowWeightValues.2,
   c1SpecWinnerTakesHighWeightValues.1, c1SpecWinnerTakesHighWeightValues.2⟩

/-! ## Claim C2 -/

/-- Claim C2, counterexample: `104.28.0.1` is in the legitimate-service
table (Cloudflare CDN `104.28.`) and not in the legitimate-ISP table, yet a
three-hop X-Forwarded-For chain makes `checkVPN` fire, so `isVPN = true` —
the service allowlist does not force `isVPN = false`. -/
theorem c2_counterexample :
    isLegitimateService "104.28.0.1" = true ∧
    isLegitimateISP "104.28.0.1" = false ∧
    (getThreatInfo "104.28.0.1" c2Req).isVPN = true :=
  ⟨by decide, by decide, by decide⟩

/-- Claim C2 (amended): an IP whose prefix is in the legitimate-ISP table
yields `isVPN = false` and `isProxy = false` regardless of the request;
an IP in either the legitimate-ISP or the legitimate-service table yields
`isProxy = false` — but the legitimate-service table does not constrain
`isVPN`. -/
theorem c2_allowlist_override :
    (∀ ip r, isLegitimateISP ip = true →
      (getThreatInfo ip r).isVPN = false ∧ (getThreatInfo ip r).isProxy = false) ∧
    (∀ ip r, (isLegitimateISP ip = true ∨ isLegitimateService ip = true) →
      (getThreatInfo ip r).isProxy = false) := by
  constructor
  · intro ip r h
    constructor <;> simp [getThreatInfo, checkVPN, checkProxy, h]
  · intro ip r h
    rcases h with h | h <;> simp [getThreatInfo, checkProxy, h]

theorem c2_allowlist_override_witness :
    (getThreatInfo "8.8.8.8" emptyReq).isVPN = false ∧
    (getThreatInfo "8.8.8.8" emptyReq).isProxy = false ∧
    (getThreatInfo "104.28.0.1" emptyReq).isProxy = false :=
  ⟨(c2_allowlist_override.1 "8.8.8.8" emptyReq (by decide)).1,
   (c2_allowlist_override.1 "8.8.8.8" emptyReq (by decide)).2,
   c2_allowlist_override.2 "104.28.0.1" emptyReq (Or.inr (by decide))⟩

/-! ## Claim C3 -/

/-- Claim C3: `calculateRiskLevel` classifies from the highest threshold
down with inclusive lower bounds — `≥ 80 → "high"`, `≥ 40 → "medium"`,
`≥ 20 → "low"`, otherwise `"minimal"`; in particular 19 is `"minimal"`,
20 `"low"`, 40 `"medium"` and 80 `"high"`. -/
theorem c3_risk_classification :
    (∀ s : ℚ, 0 ≤ s →
      ((calculateRiskLevel s = "high" ↔ 80 ≤ s) ∧
       (calculateRiskLevel s = "medium" ↔ (40 ≤ s ∧ s < 80)) ∧
       (calculateRiskLevel s = "low" ↔ (20 ≤ s ∧ s < 40)) ∧
       (calculateRiskLevel s = "minimal" ↔ s < 20))) ∧
    calculateRiskLevel 19 = "minimal" ∧ calculateRiskLevel 20 = "low" ∧
    calculateRiskLevel 40 = "medium" ∧ calculateRiskLevel 80 = "high" := by
  constructor
  · intro s _
    unfold calculateRiskLevel riskThresholds
    refine ⟨?_, ?_, ?_, ?_⟩ <;> split_ifs <;> simp_all <;> try (intros) <;> linarith
  · refine ⟨?_, ?_, ?_, ?_⟩ <;> (unfold calculateRiskLevel riskThresholds; norm_num)

theorem c3_risk_classification_witness :
    (0:ℚ) ≤ 100 ∧ calculateRiskLevel 100 = "high" :=
  ⟨by norm_num, ((c3_risk_classification.1 100 (by norm_num)).1).mpr (by norm_num)⟩

/-! ## Claim C4 -/

/-- Claim C4, counterexample: a result carrying only ip, country and
countryCode (no coordinate keys at all) gets score 0.8 from the code —
`data.latitude !== null` is true for an absent key, so both coordinate
penalties fire — while the claimed formula deducts nothing and yields 1. -/
theorem c4_counterexample :
    (validateGeoData c4Data).score = 4/5 ∧ specValidationScoreC4 c4Data = 1 ∧
    ((4:ℚ)/5) ≠ 1 := by
  refine ⟨?_, ?_, by norm_num⟩ <;>
    simp +decide [validateGeoData, scoreChain, specValidationScoreC4, c4Data,
      objGet, jsTruthyO, jsTruthy, notNullRead, isJNull, isValidIP, valid4,
      digitSpan, isDigitC, octetMatch, String.length] <;> norm_num

/-- Claim C4 (amended): the score equals 1 minus the claimed penalty
amounts, but the two coordinate penalties apply whenever the coordinate
block runs (both coordinates distinct from an explicit `null`) and the
coordinate is not a number inside the valid range — an absent or
non-numeric coordinate is penalised like an out-of-range one, and with an
explicitly null coordinate both checks are skipped; the clamp below at 0 is
real and the upper clamp is vacuous (`specPenaltyC4` spells out the exact
conditions). -/
theorem c4_validation_score_formula (data : Obj) :
    (validateGeoData data).score = max 0 (1 - specPenaltyC4 data) ∧
    0 ≤ (validateGeoData data).score ∧ (validateGeoData data).score ≤ 1 := by
  have h1 : (validateGeoData data).score = max 0 (1 - specPenaltyC4 data) := by
    simp only [validateGeoData, specPenaltyC4, scoreChain_formula]
  refine ⟨h1, ?_, ?_⟩
  · rw [h1]; exact le_max_left _ _
  · rw [h1]
    apply max_le (by norm_num)
    have h2 : 0 ≤ specPenaltyC4 data := by
      unfold specPenaltyC4
      apply scoreChain_penalty_nonneg
    linarith

/-! ## Claim C5 -/

theorem fieldStep_vrs (p : Provider) (sc : ℚ) (st : MState) (kv : String × JVal) :
    (fieldStep p sc st kv).validationResults = st.validationResults := by
  simp only [fieldStep]
  split_ifs <;> rfl

theorem foldl_fieldStep_vrs (p : Provider) (sc : ℚ) (data : Obj) :
    ∀ st : MState, (data.foldl (fieldStep p sc) st).validationResults =
      st.validationResults := by
  induction data with
  | nil => intro st; rfl
  | cons hd tl ih =>
    intro st
    simp only [List.foldl_cons, ih, fieldStep_vrs]

theorem confEntryStep_vrs (p : Provider) (acc : MState) (ckv : String × JVal) :
    (confEntryStep p acc ckv).validationResults = acc.validationResults := by
  simp only [confEntryStep]
  split_ifs with h1 <;> try rfl
  rcases h : objGet acc.fields "confidence" with _ | v <;> try rfl
  cases v <;> dsimp only <;> try rfl
  split_ifs <;> rfl

theorem foldl_confEntryStep_vrs (p : Provider) (kvs : List (String × JVal)) :
    ∀ st : MState, (kvs.foldl (confEntryStep p) st).validationResults =
      st.validationResults := by
  induction kvs with
  | nil => intro st; rfl
  | cons hd tl ih =>
    intro st
    simp only [List.foldl_cons, ih, confEntryStep_vrs]

theorem confidenceStep_vrs (p : Provider) (st : MState) (data : Obj) :
    (confidenceStep p st data).validationResults = st.validationResults := by
  unfold confidenceStep
  rcases h : objGet data "confidence" with _ | v <;> try rfl
  cases v <;> dsimp only <;> try rfl
  apply foldl_confEntryStep_vrs

theorem mergeStep_vrs (st : MState) (pr : Provider × ProviderOutcome) :
    (mergeStep st pr).validationResults =
      st.validationResults ++
        (match pr.2 with
         | .fulfilled (some d) => [(pr.1.name, validateGeoData d)]
         | _ => []) := by
  rcases pr with ⟨p, o⟩
  rcases o with _ | v
  · simp [mergeStep]
  · rcases v with _ | d
    · simp [mergeStep]
    · simp only [mergeStep, confidenceStep_vrs, foldl_fieldStep_vrs]

theorem foldl_mergeStep_vrs (l : List (Provider × ProviderOutcome)) :
    ∀ st : MState, (l.foldl mergeStep st).validationResults =
      st.validationResults ++
        l.filterMap (fun pr =>
          match pr.2 with
          | .fulfilled (some d) => some (pr.1.name, validateGeoData d)
          | _ => none) := by
  induction l with
  | nil => intro st; simp
  | cons hd tl ih =>
    intro st
    rcases hd with ⟨p, o⟩
    rcases o with _ | v
    · simpa [mergeStep_vrs] using ih (mergeStep st (p, .rejected))
    · rcases v with _ | d <;>
        simp [List.foldl_cons, ih, mergeStep_vrs]

theorem mergeCore_vrs (results : List ProviderOutcome) :
    (mergeCore results).validationResults = contributedValidations results := by
  unfold mergeCore contributedValidations initialMState
  rw [foldl_mergeStep_vrs]
  rfl

/-- Claim C5 (amended): every `dataQuality` value is the two-decimal
rounding (`Math.round(x*100)/100`) of the described quantity — accuracy of
the mean contributing validation score, consistency of
`min 1 (accuracy × 1.2)` (more than one contributor) or the accuracy
itself, completeness of `filledFields/totalFields` where the counted keys
include the internal `_lastPriority` bookkeeping key whenever a field was
written, and overall of the mean of the three unrounded values.  Runs are
deterministic: the result is a pure function of the settled results. -/
theorem c5_data_quality_rounded (results : List ProviderOutcome) :
    (mergeGeoResults results).dataQuality =
      { completeness := round2 (bookkeptCompleteness (mergeCore results)),
        consistency := round2 (specConsistency results),
        accuracy := round2 (specAccuracy results),
        overall := round2 (specOverall results) } := by
  simp only [mergeGeoResults, calculateDataQuality, specAccuracy,
    specConsistency, specOverall, bookkeptCompleteness, mergeCore_vrs,
    Quality.mk.injEq]
  norm_num

set_option maxRecDepth 4096 in
theorem c4DataValidation : validateGeoData c4Data =
    { score := 4/5,
      issues := ["Invalid latitude value", "Invalid longitude value"],
      isValid := true } := by
  simp +decide [validateGeoData, scoreChain, c4Data, objGet, jsTruthy,
    jsTruthyO, notNullRead, isJNull, isValidIP, valid4, digitSpan, isDigitC,
    octetMatch, String.length]
  norm_num

/-- Claim C5, counterexample: one provider contributing ip, country and
countryCode (validation score 0.8) produces
`dataQuality.completeness = 0.18` — the exact ratio is 4/22 = 2/11 (the
`_lastPriority` key is counted) which rounds to 9/50, while the claimed
exact `filledFields/totalDeclaredFields` of the returned record is
4/21 (ip, country, countryCode and the generated flag, over 21 declared
fields); no reading makes 0.18 an exact ratio here. -/
theorem c5_counterexample :
    (mergeGeoResults c5Input).dataQuality.completeness = 9/50 ∧
    specExactCompleteness (mergeGeoResults c5Input) = 4/21 ∧
    ((9:ℚ)/50) ≠ 4/21 := by
  refine ⟨?_, ?_, by norm_num⟩ <;>
  · simp +decide [mergeGeoResults, mergeCore, providersSorted, c5Input,
      mergeStep, c4DataValidation, fieldStep, confidenceStep, confEntryStep,
      initialMState, initialMergedFields, calculateDataQuality,
      specExactCompleteness, sanitizeGeoValue, objGet, objSet, jsTruthy,
      jsTruthyO, isJNull, getFlag, jsTrim, jsToUpper, isWsC, upChar, c4Data,
      String.length, parseFloatJS, round2, jsRound]
    try norm_num [Int.floor_eq_iff]

theorem c4_validation_score_formula_witness :
    (validateGeoData c4Data).score = max 0 (1 - specPenaltyC4 c4Data) :=
  (c4_validation_score_formula c4Data).1

theorem c5_data_quality_rounded_witness :
    (mergeGeoResults c5Input).dataQuality =
      { completeness := round2 (bookkeptCompleteness (mergeCore c5Input)),
        consistency := round2 (specConsistency c5Input),
        accuracy := round2 (specAccuracy c5Input),
        overall := round2 (specOverall c5Input) } :=
  c5_data_quality_rounded c5Input

/-! ## Claim C6 -/

set_option maxRecDepth 4096 in
theorem c6DataValidation : validateGeoData c6Data =
    { score := 1, issues := [], isValid := true } := by
  simp +decide [validateGeoData, scoreChain, c6Data, objGet, jsTruthy,
    jsTruthyO, notNullRead, isJNull, isValidIP, valid4, digitSpan, isDigitC,
    octetMatch, String.length]
  norm_num

theorem c6TzEval :
    getTimezoneFromCoordinates (.jnum 40) (.jnum (-74)) = .jstr "UTC-05:00" := by
  have hoff : jsRound ((-74 : ℚ) / 15) = -5 := by
    unfold jsRound
    norm_num [Int.floor_eq_iff]
  simp only [getTimezoneFromCoordinates, parseFloatJS, hoff]
  norm_num [pad2]
  decide

/-- Claim C6, counterexample: a provider supplies the timezone
`America/Chicago` together with coordinates (40, -74); the merge keeps the
provider's timezone, but `getGeoInfo` then overwrites it with the
longitude-derived `UTC-05:00` — the approximation is not a fallback. -/
theorem c6_counterexample :
    objGet c6Data "timezone" = some (.jstr "America/Chicago") ∧
    objGet (mergeGeoResults c6Input).fields "timezone" =
      some (.jstr "America/Chicago") ∧
    objGet (recFields (getGeoInfo "8.8.8.8" c6Input false (.error ()) "t"))
      "timezone" = some (.jstr "UTC-05:00") ∧
    JVal.jstr "UTC-05:00" ≠ .jstr "America/Chicago" := by
  refine ⟨rfl, ?_, ?_, by simp⟩ <;>
  · simp +decide [getGeoInfo, mergeGeoResults, mergeCore, providersSorted,
      c6Input, mergeStep, c6DataValidation, c6TzEval, fieldStep,
      confidenceStep, confEntryStep, initialMState, initialMergedFields,
      calculateDataQuality, sanitizeGeoValue, objGet, objSet, jsTruthy,
      jsTruthyO, isJNull, getFlag, jsTrim, jsToUpper, isWsC, upChar, c6Data,
      String.length, parseFloatJS, recFields, isValidIP, valid4, digitSpan,
      isDigitC, octetMatch]
    try norm_num

/-- Claim C6 (amended): the longitude-derived timezone is applied whenever
the merged record's latitude and longitude are both truthy — overwriting
any provider-supplied timezone — and the merged (possibly
provider-supplied) timezone survives only when that condition fails. -/
theorem c6_timezone_recomputed (ip : String) (results : List ProviderOutcome)
    (tr : Except Unit ThreatInfo) (ts : String) (h : isValidIP ip = true) :
    ((jsTruthy ((objGet (mergeGeoResults results).fields "latitude").getD .jnull) &&
      jsTruthy ((objGet (mergeGeoResults results).fields "longitude").getD .jnull)) = true →
      objGet (recFields (getGeoInfo ip results false tr ts)) "timezone" =
        some (getTimezoneFromCoordinates
          ((objGet (mergeGeoResults results).fields "latitude").getD .jnull)
          ((objGet (mergeGeoResults results).fields "longitude").getD .jnull))) ∧
    ((jsTruthy ((objGet (mergeGeoResults results).fields "latitude").getD .jnull) &&
      jsTruthy ((objGet (mergeGeoResults results).fields "longitude").getD .jnull)) = false →
      objGet (recFields (getGeoInfo ip results false tr ts)) "timezone" =
        objGet (mergeGeoResults results).fields "timezone") := by
  have hlat : objGet (objSet (mergeGeoResults results).fields "ip" (.jstr ip))
      "latitude" = objGet (mergeGeoResults results).fields "latitude" :=
    objGet_objSet_ne _ _ _ _ (by simp)
  have hlon : objGet (objSet (mergeGeoResults results).fields "ip" (.jstr ip))
      "longitude" = objGet (mergeGeoResults results).fields "longitude" :=
    objGet_objSet_ne _ _ _ _ (by simp)
  constructor <;> intro hc <;>
  · simp only [getGeoInfo, h, Bool.not_true, Bool.false_eq_true, if_false,
      recFields, hlat, hlon, hc]
    split_ifs <;> simp_all [objGet_objSet_ne, objGet_objSet_self]

theorem c6_timezone_recomputed_witness :
    isValidIP "8.8.8.8" = true ∧
    objGet (recFields (getGeoInfo "8.8.8.8" [.rejected, .rejected, .rejected]
        false (.error ()) "t")) "timezone" =
      objGet (mergeGeoResults [.rejected, .rejected, .rejected]).fields
        "timezone" :=
  ⟨by decide,
   (c6_timezone_recomputed "8.8.8.8" [.rejected, .rejected, .rejected]
       (.error ()) "t" (by decide)).2
     (by simp +decide [mergeGeoResults, mergeCore, providersSorted, mergeStep,
       initialMState, initialMergedFields, objGet, objSet, jsTruthy, jsTruthyO,
       isJNull, getFlag])⟩

/-! ## Claim C7 -/

/-- Claim C7: a threat-engine failure is confined to its boundary — the
geolocation record is still returned, its `threat` sub-field carries the
unavailable marker, and the geolocation fields and data quality are
identical to those of a run whose threat engine succeeded. -/
theorem c7_threat_failure_confined (ip : String) (results : List ProviderOutcome)
    (ts : String) (h : isValidIP ip = true) :
    recIsOk (getGeoInfo ip results true (.error ()) ts) = true ∧
    recThreat (getGeoInfo ip results true (.error ()) ts) =
      some (some .unavailable) ∧
    ∀ t : ThreatInfo,
      recFields (getGeoInfo ip results true (.ok t) ts) =
        recFields (getGeoInfo ip results true (.error ()) ts) ∧
      recQuality (getGeoInfo ip results true (.ok t) ts) =
        recQuality (getGeoInfo ip results true (.error ()) ts) := by
  refine ⟨?_, ?_, fun t => ⟨?_, ?_⟩⟩ <;>
    simp [getGeoInfo, h, recIsOk, recThreat, recFields, recQuality]

theorem c7_threat_failure_confined_witness :
    isValidIP "8.8.8.8" = true ∧
    recThreat (getGeoInfo "8.8.8.8" [.rejected, .rejected, .rejected] true
      (.error ()) "t") = some (some .unavailable) :=
  ⟨by decide,
   (c7_threat_failure_confined "8.8.8.8" [.rejected, .rejected, .rejected] "t"
     (by decide)).2.1⟩

/-! ## Claim C8 -/

/-- Claim C8: when all three fan-out promises reject, `getGeoInfo` still
returns a record — every merged field except the overwritten `ip` is the
initial `null`, `sources` is empty, and `dataQuality.completeness` is 0. -/
theorem c8_all_rejected (ip : String) (tr : Except Unit ThreatInfo) (ts : String)
    (h : isValidIP ip = true) :
    recIsOk (getGeoInfo ip [.rejected, .rejected, .rejected] false tr ts) = true ∧
    recFields (getGeoInfo ip [.rejected, .rejected, .rejected] false tr ts) =
      objSet initialMergedFields "ip" (.jstr ip) ∧
    recSources (getGeoInfo ip [.rejected, .rejected, .rejected] false tr ts) =
      some [] ∧
    (recQuality (getGeoInfo ip [.rejected, .rejected, .rejected] false tr ts)).map
      Quality.completeness = some 0 := by
  refine ⟨?_, ?_, ?_, ?_⟩ <;>
  · simp +decide [getGeoInfo, h, mergeGeoResults, mergeCore, providersSorted,
      mergeStep, initialMState, initialMergedFields, calculateDataQuality,
      objGet, objSet, jsTruthy, jsTruthyO, isJNull, getFlag, recIsOk,
      recFields, recSources, recQuality, round2, jsRound]
    try norm_num

theorem c8_all_rejected_witness :
    isValidIP "8.8.8.8" = true ∧
    recSources (getGeoInfo "8.8.8.8" [.rejected, .rejected, .rejected] false
      (.error ()) "t") = some [] :=
  ⟨by decide,
   (c8_all_rejected "8.8.8.8" (.error ()) "t" (by decide)).2.2.1⟩

/-! ## Claim C9 -/

set_option maxRecDepth 12000 in
theorem octet_complete : ∀ n < 256,
    ((Nat.repr n).data.all isDigitC && octetMatch (Nat.repr n).data) = true := by
  decide

theorem digitSpan_stops (y : Char) (hy : isDigitC y = false) (ys : List Char) :
    ∀ xs : List Char, xs.all isDigitC = true →
      digitSpan (xs ++ y :: ys) = (xs, y :: ys) := by
  intro xs
  induction xs with
  | nil => intro _; simp [digitSpan, hy]
  | cons c cs ih =>
    intro hall
    simp only [List.all_cons, Bool.and_eq_true] at hall
    simp [digitSpan, hall.1, ih hall.2]

theorem digitSpan_all (xs : List Char) (hxs : xs.all isDigitC = true) :
    digitSpan xs = (xs, []) := by
  induction xs with
  | nil => rfl
  | cons c cs ih =>
    simp only [List.all_cons, Bool.and_eq_true] at hxs
    simp [digitSpan, hxs.1, ih hxs.2]

theorem valid4_concat (o1 o2 o3 o4 : List Char)
    (h1 : (o1.all isDigitC && octetMatch o1) = true)
    (h2 : (o2.all isDigitC && octetMatch o2) = true)
    (h3 : (o3.all isDigitC && octetMatch o3) = true)
    (h4 : (o4.all isDigitC && octetMatch o4) = true) :
    valid4 (o1 ++ '.' :: (o2 ++ '.' :: (o3 ++ '.' :: o4))) = true := by
  simp only [Bool.and_eq_true] at h1 h2 h3 h4
  have hdot : isDigitC '.' = false := by decide
  unfold valid4
  rw [digitSpan_stops '.' hdot _ o1 h1.1]
  simp only []
  rw [digitSpan_stops '.' hdot _ o2 h2.1]
  simp only []
  rw [digitSpan_stops '.' hdot _ o3 h3.1]
  simp only []
  rw [digitSpan_all o4 h4.1]
  simp [h1.2, h2.2, h3.2, h4.2]

theorem ipv4_literal_accepted (a b c d : ℕ)
    (ha : a ≤ 255) (hb : b ≤ 255) (hc : c ≤ 255) (hd : d ≤ 255) :
    isValidIP (Nat.repr a ++ "." ++ Nat.repr b ++ "." ++ Nat.repr c ++ "." ++
      Nat.repr d) = true := by
  have h1 := octet_complete a (by omega)
  have h2 := octet_complete b (by omega)
  have h3 := octet_complete c (by omega)
  have h4 := octet_complete d (by omega)
  have hdata : (Nat.repr a ++ "." ++ Nat.repr b ++ "." ++ Nat.repr c ++ "." ++
      Nat.repr d).data =
      (Nat.repr a).data ++ '.' :: ((Nat.repr b).data ++ '.' ::
        ((Nat.repr c).data ++ '.' :: (Nat.repr d).data)) := by
    simp [String.data_append]
  have hne : (Nat.repr a ++ "." ++ Nat.repr b ++ "." ++ Nat.repr c ++ "." ++
      Nat.repr d) ≠ "" := by
    intro heq
    have : (Nat.repr a ++ "." ++ Nat.repr b ++ "." ++ Nat.repr c ++ "." ++
        Nat.repr d).data = [] := by rw [heq]
    rw [hdata] at this
    simp at this
  unfold isValidIP
  rw [if_neg hne, hdata, valid4_concat _ _ _ _ h1 h2 h3 h4]
  rfl

/-- Claim C9, counterexample: `2001:db8::1` is a well-formed IPv6 literal
rejected by the validator, and for a malformed input the caller of
`getGeoInfo` observes the generic failure message, not an invalid-input
error. -/
theorem c9_counterexample :
    isValidIP "2001:db8::1" = false ∧
    getGeoInfo "abc" [] false (.error ()) "t" =
      .error "Failed to get geolocation information" :=
  ⟨by decide, rfl⟩

/-- Claim C9 (amended): any input rejected by the syntax validator makes
`getGeoInfo` fail before consuming the fan-out (the result is the same for
every set of provider results) — but the surfaced error is the generic
"Failed to get geolocation information", not a distinct invalid-input
error; every canonical IPv4 literal passes the check, `null` and the
malformed samples are rejected, and of the IPv6 forms only uncompressed
literals, `::`, `::1` and leading-`::` compressions pass — interior
compressions such as `2001:db8::1` are rejected. -/
theorem c9_invalid_input_policy :
    (∀ ip results it tr ts, isValidIP ip = false →
      getGeoInfo ip results it tr ts =
        .error "Failed to get geolocation information") ∧
    (∀ a b c d : ℕ, a ≤ 255 → b ≤ 255 → c ≤ 255 → d ≤ 255 →
      isValidIP (Nat.repr a ++ "." ++ Nat.repr b ++ "." ++ Nat.repr c ++ "." ++
        Nat.repr d) = true) ∧
    isValidIPArg none = false ∧ isValidIP "999.1.1.1" = false ∧
    isValidIP "abc" = false ∧ isValidIP "" = false ∧
    isValidIP "2001:0db8:0000:0000:0000:0000:0000:0001" = true ∧
    isValidIP "::" = true ∧ isValidIP "::1" = true ∧
    isValidIP "2001:db8::1" = false :=
  ⟨fun ip results it tr ts h => by simp [getGeoInfo, h],
   ipv4_literal_accepted,
   by decide, by decide, by decide, by decide, by decide, by decide,
   by decide, by decide⟩

theorem c9_invalid_input_policy_witness :
    (8:ℕ) ≤ 255 ∧
    isValidIP (Nat.repr 8 ++ "." ++ Nat.repr 8 ++ "." ++ Nat.repr 8 ++ "." ++
      Nat.repr 8) = true ∧
    getGeoInfo "abc" [] false (.error ()) "t" =
      .error "Failed to get geolocation information" :=
  ⟨by norm_num,
   c9_invalid_input_policy.2.1 8 8 8 8 (by norm_num) (by norm_num)
     (by norm_num) (by norm_num),
   c9_invalid_input_policy.1 "abc" [] false (.error ()) "t" (by decide)⟩

/-! ## Claim C10 -/

/-- Claim C10: for every valid input ip and any provider outcomes, the
returned record's `ip` field equals the caller's argument — the merge's
value is overwritten after the merge. -/
theorem c10_ip_overwritten (ip : String) (results : List ProviderOutcome)
    (it : Bool) (tr : Except Unit ThreatInfo) (ts : String)
    (h : isValidIP ip = true) :
    recIsOk (getGeoInfo ip results it tr ts) = true ∧
    objGet (recFields (getGeoInfo ip results it tr ts)) "ip" =
      some (.jstr ip) := by
  constructor
  · simp [getGeoInfo, h, recIsOk]
  · simp only [getGeoInfo, h, Bool.not_true, Bool.false_eq_true, if_false,
      recFields]
    split_ifs <;> simp [objGet_objSet_ne, objGet_objSet_self]

theorem c10_ip_overwritten_witness :
    isValidIP "8.8.8.8" = true ∧
    objGet (recFields (getGeoInfo "8.8.8.8" [] false (.error ()) "t")) "ip" =
      some (.jstr "8.8.8.8") :=
  ⟨by decide,
   (c10_ip_overwritten "8.8.8.8" [] false (.error ()) "t" (by decide)).2⟩

end IpApi
